import Mathlib

/-!
Shallow embedding of the VIDISKY review-scraper core.

Two implementations of the Google-reviews scrape operation exist in the
repository and are both modelled here:

* `scrapeServer` embeds the inline `scrapeGoogleReviews` of
  `backend/server.js` (the one actually wired to the `/google-scrape`
  route).  Its collection loop keeps unique texts in a JS `Set` (exact
  string equality, insertion order), its stagnation counter follows the
  unique-text count, and its fallback record URL is `searchVariants[0]`.

* `gIter` / `gStep` / `gScrape` embed the exported `scrapeGoogleReviews`
  of `backend/scrapers/googleScraper.js`.  Its loop dedups texts
  case-insensitively (`out.some(x => x.text.toLowerCase() === k)`), its
  stagnation counter follows the rendered review-card count, and its
  fallback record URL is the empty string.

Browser interaction (Playwright calls) is abstracted as an environment:
what the page yields at each step (navigation success, selector
visibility, extracted text chunks, elapsed wall-clock time) is an input
to the otherwise pure model.  The fixed 900 ms pause executed by both
loops before the next iteration is baked into the time accounting.
-/

/-- A returned review record: the `{ text, url }` objects produced by both
scraper variants. -/
structure ReviewRecord where
  text : String
  url : String
deriving DecidableEq

/-- Error taxonomy for the server scraper, one constructor per throw site:
`DriverFailure` for Playwright-level failures, `NavigationFailed` for
`throw new Error("Could not open a place page.")`, `ReviewsNotFound` for
`throw new Error("Review cards not found")`. -/
inductive ScrapeErr where
  | DriverFailure
  | NavigationFailed
  | ReviewsNotFound
deriving DecidableEq

/-- Outcome of one run of the server scraper: the returned value or the
raised error, together with how many times `context.close()` and
`browser.close()` were invoked on that path. -/
structure ScrapeOutcome where
  result : Except ScrapeErr (List ReviewRecord)
  contextClosed : Nat
  browserClosed : Nat

/-- JS `String.prototype.toLowerCase`, modelled character by character on
the underlying list. -/
def lowerStr (s : String) : String :=
  ⟨s.data.map Char.toLower⟩

/-- JS `String.prototype.trim`, modelled on the underlying character
list: drop whitespace from both ends. -/
def trimStr (s : String) : String :=
  ⟨((s.data.dropWhile Char.isWhitespace).reverse.dropWhile
      Char.isWhitespace).reverse⟩

/-- JS `Set.add` on a set of strings kept in insertion order: membership is
exact string equality (server.js line 234, `texts.add(t)`). -/
def setAdd (l : List String) (t : String) : List String :=
  if t ∈ l then l else l ++ [t]

/-- The case-insensitive append of googleScraper.js lines 91-94:
`if (!out.some(x => x.text.toLowerCase() === k)) out.push(it)` where
`k = it.text.toLowerCase()`. -/
def ciAdd (l : List String) (t : String) : List String :=
  if l.any (fun x => lowerStr x == lowerStr t) then l else l ++ [t]

/-- Decidable equality for fallible results, so that concrete runs of the
model can be checked by evaluation. -/
def exceptDecEq {ε α : Type} [DecidableEq ε] [DecidableEq α] :
    DecidableEq (Except ε α)
  | .error e, .error f =>
    match decEq e f with
    | .isTrue h => .isTrue (h ▸ rfl)
    | .isFalse h => .isFalse (fun hh => h (by cases hh; rfl))
  | .error _, .ok _ => .isFalse (fun hh => by cases hh)
  | .ok _, .error _ => .isFalse (fun hh => by cases hh)
  | .ok a, .ok b =>
    match decEq a b with
    | .isTrue h => .isTrue (h ▸ rfl)
    | .isFalse h => .isFalse (fun hh => h (by cases hh; rfl))

instance {ε α : Type} [DecidableEq ε] [DecidableEq α] :
    DecidableEq (Except ε α) :=
  exceptDecEq

/-- One transition of a fuelled loop: either the loop exits with a final
state or continues with the next state. -/
inductive LoopRes (σ : Type) where
  | done (s : σ)
  | next (s : σ)

/-- Run a loop body until it exits, with an explicit fuel bound; `none`
means the fuel ran out before the loop exited. -/
def runLoop {σ : Type} (step : σ → LoopRes σ) : Nat → σ → Option σ
  | 0, _ => none
  | fuel + 1, s =>
    match step s with
    | .done r => some r
    | .next s' => runLoop step fuel s'

/-- Environment of one server.js scrape operation: the query, the
behaviour of the driven page, and the wall clock.  `chunk i` is what the
card extraction (`cardsLocator.evaluateAll`) yields on iteration `i`;
`dt i` is the page time consumed by iteration `i` beyond the fixed
`wait(900)`; `navElapsed` is `Date.now() - start` when the collection
loop is first entered; `visible1`/`visible2` are the two visibility
probes over the card selectors (before and after the extra 1500 ms
wait); `enc` is `encodeURIComponent`. -/
structure ServerEnv where
  name : String
  location : String
  maxReviews : Nat
  timeoutMs : Nat
  enc : String → String
  newContextOk : Bool
  newPageOk : Bool
  gotoThrows : Bool
  navOk : Bool
  visible1 : String → Bool
  visible2 : String → Bool
  navElapsed : Nat
  chunk : Nat → List String
  dt : Nat → Nat
  placeUrl : String

/-- State of the server.js collection loop (lines 211-243): the `texts`
set in insertion order, `stagnation`, `lastCount`, the iteration index,
and `Date.now() - start`. -/
structure CState where
  texts : List String
  stagnation : Nat
  lastCount : Nat
  iter : Nat
  elapsed : Nat
deriving DecidableEq

/-- The first search variant URL of server.js line 71:
`https://www.google.com/maps/search/${encodeURIComponent(q)}?hl=en&gl=us`
with `q = `${name} ${location}`.trim()`. -/
def searchVariant0 (env : ServerEnv) : String :=
  "https://www.google.com/maps/search/"
    ++ env.enc (trimStr (env.name ++ " " ++ env.location))
    ++ "?hl=en&gl=us"

/-- The review-card selector chain of server.js lines 166-172. -/
def cardSelectors : List String :=
  [ "div[data-review-id]"
  , "[aria-label=\"Review\"]"
  , "div[jscontroller][data-review-id]"
  , "div.section-review"
  , "div[data-section-id=\"reviews\"] div[role=\"article\"]" ]

/-- Card discovery of server.js lines 173-191: scan the selector chain for
a visible match, and if none is visible scan it again after the extra
1500 ms wait; `none` models the `"Review cards not found"` throw. -/
def findCards (env : ServerEnv) : Option String :=
  match cardSelectors.find? (fun sel => env.visible1 sel) with
  | some sel => some sel
  | none => cardSelectors.find? (fun sel => env.visible2 sel)

/-- The body of one server.js collection iteration up to the break checks
(lines 216-238): extract a chunk, add every text to the set, recompute
the count, update `stagnation` (`countNow > lastCount ? 0 :
stagnation + 1`) and set `lastCount = countNow`. -/
def srvIter (env : ServerEnv) (s : CState) : CState :=
  let texts' := (env.chunk s.iter).foldl setAdd s.texts
  let countNow := texts'.length
  let stagnation' := if s.lastCount < countNow then 0 else s.stagnation + 1
  { texts := texts', stagnation := stagnation', lastCount := countNow
  , iter := s.iter + 1, elapsed := s.elapsed }

/-- One full iteration of the server.js `while` loop (lines 214-243):
the loop guard `texts.size < maxReviews && Date.now() - start <
timeoutMs`, the body `srvIter`, the break `texts.size >= maxReviews ||
stagnation >= 6`, and otherwise the scroll plus `wait(900)` before the
next iteration. -/
def srvStep (env : ServerEnv) (s : CState) : LoopRes CState :=
  if s.texts.length < env.maxReviews ∧ s.elapsed < env.timeoutMs then
    if env.maxReviews ≤ (srvIter env s).texts.length ∨
        6 ≤ (srvIter env s).stagnation then
      .done (srvIter env s)
    else
      .next { srvIter env s with elapsed := s.elapsed + 900 + env.dt s.iter }
  else .done s

/-- Initial loop state of server.js line 211-212: empty set, zero
counters, clock already at `navElapsed`. -/
def initState (env : ServerEnv) : CState :=
  { texts := [], stagnation := 0, lastCount := 0, iter := 0
  , elapsed := env.navElapsed }

/-- Fuel that always suffices for the server collection loop (proved
below): the loop can grow the set at most `maxReviews` times and stall at
most six times in a row. -/
def srvFuel (env : ServerEnv) : Nat :=
  7 * env.maxReviews + 8

/-- The state in which the server.js collection loop exits. -/
def collect (env : ServerEnv) : CState :=
  (runLoop (srvStep env) (srvFuel env) (initState env)).getD (initState env)

/-- The result construction of server.js line 262:
`Array.from(texts).slice(0, maxReviews).map(text => ({ text, url:
placeUrl || searchVariants[0] }))`. -/
def normalizeSrv (texts : List String) (placeUrl v0 : String) (mr : Nat) :
    List ReviewRecord :=
  (texts.take mr).map (fun t =>
    { text := t, url := if placeUrl = "" then v0 else placeUrl })

/-- End-to-end model of server.js `scrapeGoogleReviews` (lines 51-268).
`newContext`/`newPage` failures happen before the `try` block, so no
close runs on those paths; every failure inside the `try` flows through
the `catch`, which closes the context and the browser once each before
re-raising; the success path closes both once and returns the normalized
records. -/
def scrapeServer (env : ServerEnv) : ScrapeOutcome :=
  if env.newContextOk then
    if env.newPageOk then
      if env.gotoThrows then
        { result := .error .DriverFailure, contextClosed := 1, browserClosed := 1 }
      else if env.navOk then
        match findCards env with
        | none =>
          { result := .error .ReviewsNotFound, contextClosed := 1, browserClosed := 1 }
        | some _ =>
          { result := .ok (normalizeSrv (collect env).texts env.placeUrl
              (searchVariant0 env) env.maxReviews)
          , contextClosed := 1, browserClosed := 1 }
      else
        { result := .error .NavigationFailed, contextClosed := 1, browserClosed := 1 }
    else
      { result := .error .DriverFailure, contextClosed := 0, browserClosed := 0 }
  else
    { result := .error .DriverFailure, contextClosed := 0, browserClosed := 0 }

/-- Environment of one googleScraper.js scrape operation: `cardCount i`
is `reviewCards.count()` on iteration `i`, `items i` the texts that
`reviewCards.evaluateAll` extracts, `dt i` the page time consumed beyond
the fixed `sleep(900)`, `navElapsed` the clock value when the loop is
entered. -/
structure GEnv where
  maxReviews : Nat
  timeoutMs : Nat
  cardCount : Nat → Nat
  items : Nat → List String
  dt : Nat → Nat
  navElapsed : Nat
  placeUrl : String

/-- State of the googleScraper.js collection loop (lines 64-103). -/
structure GState where
  out : List String
  loaded : Nat
  stagnation : Nat
  lastCount : Nat
  iter : Nat
  elapsed : Nat
deriving DecidableEq

/-- The body of one googleScraper.js iteration up to the break checks
(lines 67-95): read the card count, update `lastCount`/`stagnation`
(`count > lastCount` resets the streak), append the extracted items
case-insensitively, and set `loaded = out.length`. -/
def gIter (env : GEnv) (s : GState) : GState :=
  let count := env.cardCount s.iter
  let lastCount' := if s.lastCount < count then count else s.lastCount
  let stagnation' := if s.lastCount < count then 0 else s.stagnation + 1
  let out' := (env.items s.iter).foldl ciAdd s.out
  { out := out', loaded := out'.length, stagnation := stagnation'
  , lastCount := lastCount', iter := s.iter + 1, elapsed := s.elapsed }

/-- One full iteration of the googleScraper.js `while` loop (lines
65-103): the guard `loaded < maxReviews && Date.now() - start <
timeoutMs`, the body `gIter`, the two breaks `loaded >= maxReviews` and
`stagnation >= 6`, and otherwise the scroll plus `sleep(900)`. -/
def gStep (env : GEnv) (s : GState) : LoopRes GState :=
  if s.loaded < env.maxReviews ∧ s.elapsed < env.timeoutMs then
    if env.maxReviews ≤ (gIter env s).loaded then .done (gIter env s)
    else if 6 ≤ (gIter env s).stagnation then .done (gIter env s)
    else
      .next { gIter env s with elapsed := s.elapsed + 900 + env.dt s.iter }
  else .done s

/-- Initial loop state of googleScraper.js lines 30 and 64. -/
def gInit (env : GEnv) : GState :=
  { out := [], loaded := 0, stagnation := 0, lastCount := 0, iter := 0
  , elapsed := env.navElapsed }

/-- Fuel that always suffices for the googleScraper loop (proved below):
every continuing iteration advances the clock by at least the fixed
900 ms sleep, so the time guard fails after at most
`timeoutMs / 900 + 1` iterations. -/
def gFuel (env : GEnv) : Nat :=
  (env.timeoutMs + 899) / 900 + 2

/-- The state in which the googleScraper.js collection loop exits. -/
def gCollect (env : GEnv) : GState :=
  (runLoop (gStep env) (gFuel env) (gInit env)).getD (gInit env)

/-- The result construction of googleScraper.js line 121:
`out.slice(0, maxReviews).map(r => ({ text: r.text, url: placeUrl ||
"" }))`. -/
def normalizeG (texts : List String) (placeUrl : String) (mr : Nat) :
    List ReviewRecord :=
  (texts.take mr).map (fun t =>
    { text := t, url := if placeUrl = "" then "" else placeUrl })

/-- The successful return path of googleScraper.js `scrapeGoogleReviews`. -/
def gScrape (env : GEnv) : List ReviewRecord :=
  normalizeG (gCollect env).out env.placeUrl env.maxReviews

/-- Value of the longest decimal-digit run, most significant digit
first. -/
def digitsVal (ds : List Char) : Nat :=
  ds.foldl (fun n c => 10 * n + (c.toNat - 48)) 0

/-- JS `parseInt(s, 10)`: skip leading whitespace, read an optional sign,
then the longest prefix of decimal digits; `none` models `NaN`. -/
def jsParseInt (s : String) : Option Int :=
  let cs := s.toList.dropWhile (fun c => c.isWhitespace)
  match cs with
  | '-' :: rest =>
    let ds := rest.takeWhile (fun c => c.isDigit)
    if ds.isEmpty then none else some (-(digitsVal ds : Int))
  | '+' :: rest =>
    let ds := rest.takeWhile (fun c => c.isDigit)
    if ds.isEmpty then none else some ((digitsVal ds : Int))
  | _ =>
    let ds := cs.takeWhile (fun c => c.isDigit)
    if ds.isEmpty then none else some ((digitsVal ds : Int))

/-- JS `a || b` on a number: `NaN` and `0` are falsy and fall back to the
default. -/
def jsOrNum (v : Option Int) (d : Int) : Int :=
  match v with
  | none => d
  | some x => if x = 0 then d else x

/-- JS `q || d` on an optional query parameter: a missing parameter and
the empty string both fall back to the default string. -/
def jsOrStr (q : Option String) (d : String) : String :=
  match q with
  | none => d
  | some s => if s = "" then d else s

/-- server.js line 281: `Math.min(parseInt(req.query.max || "80", 10) ||
80, 200)`. -/
def routeMax (q : Option String) : Int :=
  min (jsOrNum (jsParseInt (jsOrStr q "80")) 80) 200

/-- server.js line 282: `Math.min(parseInt(req.query.timeout || "120000",
10) || 120000, 240000)`. -/
def routeTimeoutMs (q : Option String) : Int :=
  min (jsOrNum (jsParseInt (jsOrStr q "120000")) 120000) 240000

/-- Invariant of the server.js collection loop: `lastCount` always holds
the current size of the `texts` set, and the set is duplicate-free under
exact string equality. -/
def SrvInv (s : CState) : Prop :=
  s.lastCount = s.texts.length ∧ s.texts.Pairwise (· ≠ ·)

/-- Termination measure of the server.js collection loop: every continuing
iteration either grows the set (at most `maxReviews` times) or bumps the
stagnation counter (at most six times in a row). -/
def srvMeasure (env : ServerEnv) (s : CState) : Nat :=
  7 * (env.maxReviews - s.texts.length) + (6 - s.stagnation)

/-- Invariant of the googleScraper.js collection loop: `loaded` always
holds the current length of `out`, and `out` is duplicate-free under
case-insensitive string equality. -/
def GInv (s : GState) : Prop :=
  s.loaded = s.out.length ∧ s.out.Pairwise (fun a b => lowerStr a ≠ lowerStr b)

/-- Termination measure of the googleScraper.js collection loop: every
continuing iteration advances the clock by at least the fixed 900 ms
sleep. -/
def gMeasure (env : GEnv) (s : GState) : Nat :=
  (env.timeoutMs + 899 - s.elapsed) / 900

/-- Concrete run: everything succeeds, the share URL is discovered, and
the first extraction yields two texts differing only in letter case. -/
def envA : ServerEnv :=
  { name := "Foo", location := "Bar", maxReviews := 5, timeoutMs := 120000
  , enc := id, newContextOk := true, newPageOk := true, gotoThrows := false
  , navOk := true, visible1 := fun _ => true, visible2 := fun _ => false
  , navElapsed := 1000
  , chunk := fun i => if i = 0 then ["Great place", "great place"] else []
  , dt := fun _ => 0, placeUrl := "https://maps.app.goo.gl/abc" }

/-- Concrete run: everything succeeds but no share URL is discovered. -/
def envB : ServerEnv :=
  { name := "Foo", location := "Bar", maxReviews := 5, timeoutMs := 120000
  , enc := id, newContextOk := true, newPageOk := true, gotoThrows := false
  , navOk := true, visible1 := fun _ => true, visible2 := fun _ => false
  , navElapsed := 1000
  , chunk := fun i => if i = 0 then ["Nice and quiet."] else []
  , dt := fun _ => 0, placeUrl := "" }

/-- Concrete run: navigation and card discovery succeed, reviews are
available, but the time budget is already exhausted when the collection
loop is reached. -/
def envT : ServerEnv :=
  { name := "Foo", location := "Bar", maxReviews := 5, timeoutMs := 120000
  , enc := id, newContextOk := true, newPageOk := true, gotoThrows := false
  , navOk := true, visible1 := fun _ => true, visible2 := fun _ => false
  , navElapsed := 120001
  , chunk := fun i => if i = 0 then ["Lovely building."] else []
  , dt := fun _ => 0, placeUrl := "" }

/-- Concrete run: `context.newPage()` raises, before the `try` block is
entered. -/
def envL : ServerEnv :=
  { name := "Foo", location := "Bar", maxReviews := 5, timeoutMs := 120000
  , enc := id, newContextOk := true, newPageOk := false, gotoThrows := false
  , navOk := true, visible1 := fun _ => true, visible2 := fun _ => false
  , navElapsed := 1000
  , chunk := fun _ => []
  , dt := fun _ => 0, placeUrl := "" }

/-- Concrete run: navigation succeeds but no card selector ever matches a
visible element, on either probe. -/
def envN : ServerEnv :=
  { name := "Foo", location := "Bar", maxReviews := 5, timeoutMs := 120000
  , enc := id, newContextOk := true, newPageOk := true, gotoThrows := false
  , navOk := true, visible1 := fun _ => false, visible2 := fun _ => false
  , navElapsed := 1000
  , chunk := fun _ => []
  , dt := fun _ => 0, placeUrl := "" }

/-- Concrete googleScraper.js run: the rendered card count stays at zero
while the first extraction still yields one new unique text. -/
def genvS : GEnv :=
  { maxReviews := 5, timeoutMs := 9000
  , cardCount := fun _ => 0
  , items := fun i => if i = 0 then ["A lovely stay"] else []
  , dt := fun _ => 0, navElapsed := 0, placeUrl := "" }

/-- Concrete googleScraper.js run: the first extraction yields two texts
differing only in letter case. -/
def genvC : GEnv :=
  { maxReviews := 5, timeoutMs := 9000
  , cardCount := fun _ => 2
  , items := fun i => if i = 0 then ["Great place", "great place"] else []
  , dt := fun _ => 0, navElapsed := 0, placeUrl := "" }

/-- One iteration of a fuelled loop cannot be `none` and cannot skip the
first exit: if the body exits immediately, any nonzero fuel returns that
exit state. -/
theorem runLoop_stop {σ : Type} (step : σ → LoopRes σ) (fuel : Nat) (s r : σ)
    (hf : fuel ≠ 0) (h : step s = .done r) :
    runLoop step fuel s = some r := by
  cases fuel with
  | zero => exact absurd rfl hf
  | succ n => unfold runLoop; rw [h]

/-- Fuelled-loop exhaustion cannot happen once the fuel dominates a
strictly decreasing measure that the body respects on continuing steps. -/
theorem runLoop_isSome {σ : Type} (step : σ → LoopRes σ) (I : σ → Prop)
    (μ : σ → Nat)
    (hn : ∀ s s', I s → step s = .next s' → I s' ∧ μ s' < μ s) :
    ∀ fuel s, I s → μ s < fuel → (runLoop step fuel s).isSome = true := by
  intro fuel
  induction fuel with
  | zero => intro s _ h; omega
  | succ n ih =>
    intro s hI hμ
    unfold runLoop
    cases hstep : step s with
    | done r => simp
    | next s' =>
      simp only
      obtain ⟨hI', hlt⟩ := hn s s' hI hstep
      exact ih s' hI' (by omega)

/-- Whatever a fuelled loop returns came out of a `done` step reached
through invariant-preserving `next` steps. -/
theorem runLoop_exit {σ : Type} (step : σ → LoopRes σ) (I Q : σ → Prop)
    (hn : ∀ s s', I s → step s = .next s' → I s')
    (hd : ∀ s r, I s → step s = .done r → Q r) :
    ∀ fuel s r, I s → runLoop step fuel s = some r → Q r := by
  intro fuel
  induction fuel with
  | zero => intro s r _ h; simp [runLoop] at h
  | succ n ih =>
    intro s r hI h
    unfold runLoop at h
    cases hstep : step s with
    | done r' =>
      rw [hstep] at h
      simp only [Option.some.injEq] at h
      exact h ▸ hd s r' hI hstep
    | next s' =>
      rw [hstep] at h
      exact ih s' r (hn s s' hI hstep) h

/-- An option known to be populated equals `some` of its forced value. -/
theorem eq_some_getD {α : Type} (o : Option α) (d : α) (h : o.isSome = true) :
    o = some (o.getD d) := by
  cases o with
  | none => simp at h
  | some a => rfl

/-- Adding to the JS set never shrinks it. -/
theorem length_le_setAdd (l : List String) (t : String) :
    l.length ≤ (setAdd l t).length := by
  unfold setAdd; split <;> simp

/-- Merging a whole extracted chunk never shrinks the JS set. -/
theorem length_le_foldl_setAdd (c : List String) (l : List String) :
    l.length ≤ (c.foldl setAdd l).length := by
  induction c generalizing l with
  | nil => simp
  | cons t c ih =>
    exact le_trans (length_le_setAdd l t) (ih (setAdd l t))

/-- Adding to the JS set keeps its elements pairwise distinct. -/
theorem pairwise_setAdd (l : List String) (t : String)
    (h : l.Pairwise (· ≠ ·)) : (setAdd l t).Pairwise (· ≠ ·) := by
  unfold setAdd
  split
  · exact h
  · rename_i hmem
    rw [List.pairwise_append]
    refine ⟨h, List.pairwise_singleton _ _, ?_⟩
    intro a ha b hb
    simp only [List.mem_singleton] at hb
    subst hb
    exact fun hab => hmem (hab ▸ ha)

/-- Merging a whole extracted chunk keeps the JS set pairwise distinct. -/
theorem pairwise_foldl_setAdd (c : List String) (l : List String)
    (h : l.Pairwise (· ≠ ·)) : (c.foldl setAdd l).Pairwise (· ≠ ·) := by
  induction c generalizing l with
  | nil => exact h
  | cons t c ih => exact ih (setAdd l t) (pairwise_setAdd l t h)

/-- The case-insensitive append keeps the accumulator pairwise distinct
under case-insensitive equality. -/
theorem pairwise_ciAdd (l : List String) (t : String)
    (h : l.Pairwise (fun a b => lowerStr a ≠ lowerStr b)) :
    (ciAdd l t).Pairwise (fun a b => lowerStr a ≠ lowerStr b) := by
  unfold ciAdd
  split
  · exact h
  · rename_i hany
    rw [List.pairwise_append]
    refine ⟨h, List.pairwise_singleton _ _, ?_⟩
    intro a ha b hb
    simp only [List.mem_singleton] at hb
    subst hb
    simp only [List.any_eq_true, beq_iff_eq, not_exists, not_and] at hany
    exact hany a ha

/-- Merging a whole extracted chunk keeps the googleScraper accumulator
pairwise distinct under case-insensitive equality. -/
theorem pairwise_foldl_ciAdd (c : List String) (l : List String)
    (h : l.Pairwise (fun a b => lowerStr a ≠ lowerStr b)) :
    (c.foldl ciAdd l).Pairwise (fun a b => lowerStr a ≠ lowerStr b) := by
  induction c generalizing l with
  | nil => exact h
  | cons t c ih => exact ih (ciAdd l t) (pairwise_ciAdd l t h)

/-- A continuing server.js iteration preserves the loop invariant and
strictly decreases the termination measure. -/
theorem srvStep_next (env : ServerEnv) (s s' : CState) (hI : SrvInv s)
    (h : srvStep env s = .next s') :
    SrvInv s' ∧ srvMeasure env s' < srvMeasure env s := by
  unfold srvStep at h
  split at h
  · rename_i hg
    split at h
    · cases h
    · rename_i hbr
      cases h
      push_neg at hbr
      obtain ⟨hbr1, hbr2⟩ := hbr
      have hlen : s.texts.length ≤ ((env.chunk s.iter).foldl setAdd s.texts).length :=
        length_le_foldl_setAdd _ _
      have hlc := hI.1
      constructor
      · exact ⟨rfl, pairwise_foldl_setAdd _ _ hI.2⟩
      · simp only [srvMeasure, srvIter] at hbr1 hbr2 ⊢
        by_cases hgrow : s.lastCount < ((env.chunk s.iter).foldl setAdd s.texts).length
        · simp only [if_pos hgrow] at hbr2 ⊢
          omega
        · simp only [if_neg hgrow] at hbr2 ⊢
          omega
  · cases h

/-- An exiting server.js iteration preserves the loop invariant and exits
only in a state where one of the three stop conditions holds. -/
theorem srvStep_done (env : ServerEnv) (s r : CState) (hI : SrvInv s)
    (h : srvStep env s = .done r) :
    SrvInv r ∧ (env.maxReviews ≤ r.texts.length ∨ 6 ≤ r.stagnation ∨
      env.timeoutMs ≤ r.elapsed) := by
  unfold srvStep at h
  split at h
  · rename_i hg
    split at h
    · rename_i hbr
      cases h
      refine ⟨⟨rfl, pairwise_foldl_setAdd _ _ hI.2⟩, ?_⟩
      rcases hbr with hbr | hbr
      · exact Or.inl hbr
      · exact Or.inr (Or.inl hbr)
    · cases h
  · rename_i hg
    injection h with hsr
    subst hsr
    push_neg at hg
    refine ⟨hI, ?_⟩
    by_cases hl : s.texts.length < env.maxReviews
    · exact Or.inr (Or.inr (hg hl))
    · exact Or.inl (by omega)

/-- The server.js collection loop terminates within its fuel bound: the
fuelled run returns exactly the exit state `collect`. -/
theorem collect_eq (env : ServerEnv) :
    runLoop (srvStep env) (srvFuel env) (initState env) = some (collect env) := by
  have hs := runLoop_isSome (srvStep env) SrvInv (srvMeasure env)
    (fun s s' hI h => srvStep_next env s s' hI h) (srvFuel env) (initState env)
    ⟨rfl, List.Pairwise.nil⟩
    (by simp only [srvMeasure, srvFuel, initState]; omega)
  exact eq_some_getD _ _ hs

/-- The exit state of the server.js collection loop satisfies the loop
invariant and one of the three stop conditions. -/
theorem collect_spec (env : ServerEnv) :
    SrvInv (collect env) ∧
      (env.maxReviews ≤ (collect env).texts.length ∨
        6 ≤ (collect env).stagnation ∨
        env.timeoutMs ≤ (collect env).elapsed) :=
  runLoop_exit (srvStep env) SrvInv _
    (fun s s' hI h => (srvStep_next env s s' hI h).1)
    (fun s r hI h => srvStep_done env s r hI h)
    (srvFuel env) (initState env) (collect env) ⟨rfl, List.Pairwise.nil⟩
    (collect_eq env)

/-- A continuing googleScraper.js iteration preserves the loop invariant
and strictly decreases the time-based termination measure. -/
theorem gStep_next (env : GEnv) (s s' : GState) (hI : GInv s)
    (h : gStep env s = .next s') :
    GInv s' ∧ gMeasure env s' < gMeasure env s := by
  unfold gStep at h
  split at h
  · rename_i hg
    split at h
    · cases h
    · split at h
      · cases h
      · cases h
        constructor
        · exact ⟨rfl, pairwise_foldl_ciAdd _ _ hI.2⟩
        · simp only [gMeasure, gIter]
          have htm := hg.2
          have h1 : env.timeoutMs + 899 - (s.elapsed + 900 + env.dt s.iter) ≤
              env.timeoutMs + 899 - s.elapsed - 900 := by omega
          have h2 : 900 ≤ env.timeoutMs + 899 - s.elapsed := by omega
          have h3 : (env.timeoutMs + 899 - s.elapsed - 900) / 900 + 1 =
              (env.timeoutMs + 899 - s.elapsed) / 900 := by
            have := Nat.sub_add_cancel h2
            calc (env.timeoutMs + 899 - s.elapsed - 900) / 900 + 1
                = (env.timeoutMs + 899 - s.elapsed - 900 + 900) / 900 := by
                  rw [Nat.add_div_right _ (by norm_num)]
              _ = (env.timeoutMs + 899 - s.elapsed) / 900 := by rw [this]
          have h4 := Nat.div_le_div_right (c := 900) h1
          omega
  · cases h

/-- An exiting googleScraper.js iteration preserves the loop invariant and
exits only in a state where one of the three stop conditions holds. -/
theorem gStep_done (env : GEnv) (s r : GState) (hI : GInv s)
    (h : gStep env s = .done r) :
    GInv r ∧ (env.maxReviews ≤ r.out.length ∨ 6 ≤ r.stagnation ∨
      env.timeoutMs ≤ r.elapsed) := by
  unfold gStep at h
  split at h
  · rename_i hg
    split at h
    · rename_i hbr
      cases h
      exact ⟨⟨rfl, pairwise_foldl_ciAdd _ _ hI.2⟩, Or.inl hbr⟩
    · split at h
      · rename_i hbr
        cases h
        exact ⟨⟨rfl, pairwise_foldl_ciAdd _ _ hI.2⟩, Or.inr (Or.inl hbr)⟩
      · cases h
  · rename_i hg
    injection h with hsr
    subst hsr
    push_neg at hg
    refine ⟨hI, ?_⟩
    by_cases hl : s.loaded < env.maxReviews
    · exact Or.inr (Or.inr (hg hl))
    · exact Or.inl (by rw [← hI.1]; omega)

/-- The googleScraper.js collection loop terminates within its fuel bound:
the fuelled run returns exactly the exit state `gCollect`. -/
theorem gCollect_eq (env : GEnv) :
    runLoop (gStep env) (gFuel env) (gInit env) = some (gCollect env) := by
  have hs := runLoop_isSome (gStep env) GInv (gMeasure env)
    (fun s s' hI h => gStep_next env s s' hI h) (gFuel env) (gInit env)
    ⟨rfl, List.Pairwise.nil⟩
    (by
      simp only [gMeasure, gFuel, gInit]
      have h1 : env.timeoutMs + 899 - env.navElapsed ≤ env.timeoutMs + 899 :=
        Nat.sub_le _ _
      have h2 := Nat.div_le_div_right (c := 900) h1
      omega)
  exact eq_some_getD _ _ hs

/-- The exit state of the googleScraper.js collection loop satisfies the
loop invariant and one of the three stop conditions. -/
theorem gCollect_spec (env : GEnv) :
    GInv (gCollect env) ∧
      (env.maxReviews ≤ (gCollect env).out.length ∨
        6 ≤ (gCollect env).stagnation ∨
        env.timeoutMs ≤ (gCollect env).elapsed) :=
  runLoop_exit (gStep env) GInv _
    (fun s s' hI h => (gStep_next env s s' hI h).1)
    (fun s r hI h => gStep_done env s r hI h)
    (gFuel env) (gInit env) (gCollect env) ⟨rfl, List.Pairwise.nil⟩
    (gCollect_eq env)

/-- Inversion of a successful server.js run: the returned list is exactly
the normalization of the collection loop's exit state. -/
theorem scrapeServer_ok (env : ServerEnv) (l : List ReviewRecord)
    (h : (scrapeServer env).result = Except.ok l) :
    l = normalizeSrv (collect env).texts env.placeUrl (searchVariant0 env)
      env.maxReviews := by
  unfold scrapeServer at h
  split at h
  · split at h
    · split at h
      · cases h
      · split at h
        · split at h
          · cases h
          · simp only [Except.ok.injEq] at h
            exact h.symm
        · cases h
    · cases h
  · cases h

/-- The normalized result never exceeds `maxReviews` records. -/
theorem normalizeSrv_length (ts : List String) (p v0 : String) (mr : Nat) :
    (normalizeSrv ts p v0 mr).length ≤ mr := by
  simp only [normalizeSrv, List.length_map]
  exact List.length_take_le _ _

/-- The googleScraper normalized result never exceeds `maxReviews`
records. -/
theorem normalizeG_length (ts : List String) (p : String) (mr : Nat) :
    (normalizeG ts p mr).length ≤ mr := by
  simp only [normalizeG, List.length_map]
  exact List.length_take_le _ _

/-- Every record of the normalized server result carries the single shared
URL (the discovered share link, or the first search variant). -/
theorem normalizeSrv_url (ts : List String) (p v0 : String) (mr : Nat)
    (r : ReviewRecord) (hr : r ∈ normalizeSrv ts p v0 mr) :
    r.url = if p = "" then v0 else p := by
  simp only [normalizeSrv, List.mem_map] at hr
  obtain ⟨t, _, rfl⟩ := hr
  rfl

/-- Every record of the normalized googleScraper result carries the single
shared URL (the discovered share link, or the empty string). -/
theorem normalizeG_url (ts : List String) (p : String) (mr : Nat)
    (r : ReviewRecord) (hr : r ∈ normalizeG ts p mr) :
    r.url = if p = "" then "" else p := by
  simp only [normalizeG, List.mem_map] at hr
  obtain ⟨t, _, rfl⟩ := hr
  rfl

/-- Normalization reflects pairwise distinctness of the underlying texts
onto the record texts. -/
theorem normalizeSrv_pairwise (ts : List String) (p v0 : String) (mr : Nat)
    (R : String → String → Prop) (h : ts.Pairwise R) :
    (normalizeSrv ts p v0 mr).Pairwise (fun a b => R a.text b.text) := by
  simp only [normalizeSrv]
  rw [List.pairwise_map]
  exact List.Pairwise.sublist (List.take_sublist mr ts) h

/-- googleScraper normalization reflects pairwise distinctness of the
underlying texts onto the record texts. -/
theorem normalizeG_pairwise (ts : List String) (p : String) (mr : Nat)
    (R : String → String → Prop) (h : ts.Pairwise R) :
    (normalizeG ts p mr).Pairwise (fun a b => R a.text b.text) := by
  simp only [normalizeG]
  rw [List.pairwise_map]
  exact List.Pairwise.sublist (List.take_sublist mr ts) h

/-- C5: in both scraper variants the collection loop terminates, and it
stops exactly when the first stop condition fires: the fuelled run
returns within the proved fuel bound, the exit state satisfies
`uniqueCount ≥ maxResults` or `stagnation ≥ 6` or `elapsed ≥ timeoutMs`,
and whenever the top-of-loop guard already finds the target reached or
the budget exhausted the loop returns that very state untouched. -/
theorem c5_loop_termination (env : ServerEnv) (genv : GEnv) :
    runLoop (srvStep env) (srvFuel env) (initState env) = some (collect env) ∧
    (env.maxReviews ≤ (collect env).texts.length ∨
      6 ≤ (collect env).stagnation ∨
      env.timeoutMs ≤ (collect env).elapsed) ∧
    (∀ (fuel : Nat) (s : CState),
        env.maxReviews ≤ s.texts.length ∨ env.timeoutMs ≤ s.elapsed →
        runLoop (srvStep env) (fuel + 1) s = some s) ∧
    runLoop (gStep genv) (gFuel genv) (gInit genv) = some (gCollect genv) ∧
    (genv.maxReviews ≤ (gCollect genv).out.length ∨
      6 ≤ (gCollect genv).stagnation ∨
      genv.timeoutMs ≤ (gCollect genv).elapsed) := by
  refine ⟨collect_eq env, (collect_spec env).2, ?_, gCollect_eq genv,
    (gCollect_spec genv).2⟩
  intro fuel s hs
  apply runLoop_stop _ _ _ _ (Nat.succ_ne_zero fuel)
  have hng : ¬(s.texts.length < env.maxReviews ∧ s.elapsed < env.timeoutMs) := by
    rcases hs with hs | hs
    · intro hc; omega
    · intro hc; omega
  unfold srvStep
  rw [if_neg hng]

/-- Closed instance of `c5_loop_termination`: a loop entered with the time
budget already exhausted stops immediately with its entry state. -/
theorem c5_loop_termination_witness :
    runLoop (srvStep envT) 1 (initState envT) = some (initState envT) :=
  (c5_loop_termination envT genvS).2.2.1 0 (initState envT) (Or.inr (by decide))

/-- C7: if navigation succeeded but no review-card selector ever matches a
visible element on either probe, the server scraper raises
`ReviewsNotFound` instead of returning an empty result. -/
theorem c7_reviews_not_found (env : ServerEnv)
    (h1 : env.newContextOk = true) (h2 : env.newPageOk = true)
    (h3 : env.gotoThrows = false) (h4 : env.navOk = true)
    (h5 : ∀ sel ∈ cardSelectors,
        env.visible1 sel = false ∧ env.visible2 sel = false) :
    (scrapeServer env).result = Except.error ScrapeErr.ReviewsNotFound := by
  have e1 : cardSelectors.find? (fun sel => env.visible1 sel) = none :=
    List.find?_eq_none.mpr (fun x hx => by simp [(h5 x hx).1])
  have e2 : cardSelectors.find? (fun sel => env.visible2 sel) = none :=
    List.find?_eq_none.mpr (fun x hx => by simp [(h5 x hx).2])
  have hfc : findCards env = none := by
    unfold findCards
    rw [e1, e2]
  simp [scrapeServer, h1, h2, h3, h4, hfc]

/-- Closed instance of `c7_reviews_not_found` at a concrete environment
with no visible review cards. -/
theorem c7_reviews_not_found_witness :
    (scrapeServer envN).result = Except.error ScrapeErr.ReviewsNotFound :=
  c7_reviews_not_found envN rfl rfl rfl rfl (by decide)

/-- C8: a successful scrape never returns more than `maxReviews` records,
in either variant. -/
theorem c8_length_le_max (env : ServerEnv) (genv : GEnv)
    (l : List ReviewRecord) (h : (scrapeServer env).result = Except.ok l) :
    l.length ≤ env.maxReviews ∧ (gScrape genv).length ≤ genv.maxReviews := by
  refine ⟨?_, normalizeG_length _ _ _⟩
  rw [scrapeServer_ok env l h]
  exact normalizeSrv_length _ _ _ _

/-- Closed instance of `c8_length_le_max` at a concrete successful run. -/
theorem c8_length_le_max_witness :
    ([{ text := "Great place", url := "https://maps.app.goo.gl/abc" },
      { text := "great place", url := "https://maps.app.goo.gl/abc" }] :
        List ReviewRecord).length ≤ envA.maxReviews ∧
    (gScrape genvS).length ≤ genvS.maxReviews :=
  c8_length_le_max envA genvS _ (by decide)

/-- Projecting the texts back out of freshly built records recovers the
original text list. -/
theorem map_text_mk (u : String) (l : List String) :
    (l.map (fun t => ({ text := t, url := u } : ReviewRecord))).map
      (fun r => r.text) = l := by
  induction l with
  | nil => rfl
  | cons t l ih => simp [ih]

/-- C9: the result normalizers of both variants are idempotent (feeding
the normalized texts back in reproduces the same records) and
deterministic (equal inputs give equal outputs). -/
theorem c9_normalizer_idempotent (ts ts' : List String) (p p' v0 : String)
    (mr mr' : Nat) (hts : ts = ts') (hp : p = p') (hmr : mr = mr') :
    normalizeSrv ((normalizeSrv ts p v0 mr).map (fun r => r.text)) p v0 mr =
      normalizeSrv ts p v0 mr ∧
    normalizeG ((normalizeG ts p mr).map (fun r => r.text)) p mr =
      normalizeG ts p mr ∧
    normalizeSrv ts p v0 mr = normalizeSrv ts' p' v0 mr' ∧
    normalizeG ts p mr = normalizeG ts' p' mr' := by
  subst hts hp hmr
  refine ⟨?_, ?_, rfl, rfl⟩
  · have hX : (normalizeSrv ts p v0 mr).map (fun r => r.text) = ts.take mr := by
      unfold normalizeSrv
      exact map_text_mk _ _
    rw [hX]
    unfold normalizeSrv
    rw [List.take_take, min_self]
  · have hX : (normalizeG ts p mr).map (fun r => r.text) = ts.take mr := by
      unfold normalizeG
      exact map_text_mk _ _
    rw [hX]
    unfold normalizeG
    rw [List.take_take, min_self]

/-- Closed instance of `c9_normalizer_idempotent` at concrete inputs. -/
theorem c9_normalizer_idempotent_witness :
    normalizeSrv ((normalizeSrv ["Ok stay."] "" "v" 3).map (fun r => r.text))
        "" "v" 3 = normalizeSrv ["Ok stay."] "" "v" 3 ∧
    normalizeG ((normalizeG ["Ok stay."] "" 3).map (fun r => r.text)) "" 3 =
      normalizeG ["Ok stay."] "" 3 ∧
    normalizeSrv ["Ok stay."] "" "v" 3 = normalizeSrv ["Ok stay."] "" "v" 3 ∧
    normalizeG ["Ok stay."] "" 3 = normalizeG ["Ok stay."] "" 3 :=
  c9_normalizer_idempotent ["Ok stay."] ["Ok stay."] "" "" "v" 3 3 rfl rfl rfl

/-- C10: the `/google-scrape` route clamps `max` to at most 200 and
`timeout` to at most 240000 for every query string, and a missing or
non-numeric parameter falls back to 80 and 120000 respectively. -/
theorem c10_route_clamping (q : Option String) (s : String)
    (hs : s ≠ "") (hn : jsParseInt s = none) :
    routeMax q ≤ 200 ∧ routeTimeoutMs q ≤ 240000 ∧
    routeMax none = 80 ∧ routeTimeoutMs none = 120000 ∧
    routeMax (some s) = 80 ∧ routeTimeoutMs (some s) = 120000 := by
  refine ⟨min_le_right _ _, min_le_right _ _, by decide, by decide, ?_, ?_⟩
  · simp only [routeMax, jsOrStr]
    rw [if_neg hs, hn]
    decide
  · simp only [routeTimeoutMs, jsOrStr]
    rw [if_neg hs, hn]
    decide

/-- Closed instance of `c10_route_clamping` at a non-numeric parameter. -/
theorem c10_route_clamping_witness :
    routeMax (some "nope") ≤ 200 ∧ routeTimeoutMs (some "nope") ≤ 240000 ∧
    routeMax none = 80 ∧ routeTimeoutMs none = 120000 ∧
    routeMax (some "nope") = 80 ∧ routeTimeoutMs (some "nope") = 120000 :=
  c10_route_clamping (some "nope") "nope" (by decide) (by decide)

/-- C1 counterexample: in a concrete server.js run whose first extraction
yields two texts differing only in letter case, BOTH survive into the
returned list, so two records with case-insensitively-equal text
coexist; the dedup key of server.js is exact string equality, not the
case-insensitive key the claim states. -/
theorem c1_counterexample :
    (scrapeServer envA).result =
      Except.ok [{ text := "Great place", url := "https://maps.app.goo.gl/abc" },
                 { text := "great place", url := "https://maps.app.goo.gl/abc" }] ∧
    lowerStr "Great place" = lowerStr "great place" ∧
    "Great place" ≠ "great place" := by
  refine ⟨by decide, by decide, by decide⟩

/-- C1 (amended): the server.js variant merges extracted texts into a JS
`Set` keyed by EXACT string equality (first-seen insertion order), so no
two returned records have equal text, but case variants may coexist; the
googleScraper.js variant does dedup case-insensitively preserving the
first-seen casing, as the claim states. -/
theorem c1_amended_dedup (env : ServerEnv) (genv : GEnv)
    (l : List ReviewRecord) (h : (scrapeServer env).result = Except.ok l) :
    l.Pairwise (fun a b => a.text ≠ b.text) ∧
    (gScrape genv).Pairwise (fun a b => lowerStr a.text ≠ lowerStr b.text) ∧
    gScrape genvC = [{ text := "Great place", url := "" }] := by
  refine ⟨?_, ?_, by decide⟩
  · rw [scrapeServer_ok env l h]
    exact normalizeSrv_pairwise _ _ _ _ _ (collect_spec env).1.2
  · exact normalizeG_pairwise _ _ _ _ (gCollect_spec genv).1.2

/-- Closed instance of `c1_amended_dedup` at concrete runs. -/
theorem c1_amended_dedup_witness :
    ([{ text := "Great place", url := "https://maps.app.goo.gl/abc" },
      { text := "great place", url := "https://maps.app.goo.gl/abc" }] :
        List ReviewRecord).Pairwise (fun a b => a.text ≠ b.text) ∧
    (gScrape genvS).Pairwise (fun a b => lowerStr a.text ≠ lowerStr b.text) ∧
    gScrape genvC = [{ text := "Great place", url := "" }] :=
  c1_amended_dedup envA genvS _ (by decide)

/-- C2 counterexample: in a concrete server.js run where no share URL is
discovered, the record URL is the first search-variant URL, not the
empty string the claim requires. -/
theorem c2_counterexample :
    envB.placeUrl = "" ∧
    (scrapeServer envB).result =
      Except.ok [{ text := "Nice and quiet."
                 , url := "https://www.google.com/maps/search/Foo Bar?hl=en&gl=us" }] ∧
    "https://www.google.com/maps/search/Foo Bar?hl=en&gl=us" ≠ "" := by
  refine ⟨by decide, by decide, by decide⟩

/-- C2 (amended): every record of a successful scrape carries the same
shared `sourceUrl` — the discovered share URL if one was found; when
none was found the fallback is the empty string in the googleScraper.js
variant but the first search-variant URL in the server.js variant. -/
theorem c2_amended_source_url (env : ServerEnv) (genv : GEnv)
    (l : List ReviewRecord) (h : (scrapeServer env).result = Except.ok l)
    (r1 : ReviewRecord) (hr1 : r1 ∈ l)
    (r2 : ReviewRecord) (hr2 : r2 ∈ gScrape genv) :
    r1.url = (if env.placeUrl = "" then searchVariant0 env else env.placeUrl) ∧
    r2.url = (if genv.placeUrl = "" then "" else genv.placeUrl) := by
  constructor
  · rw [scrapeServer_ok env l h] at hr1
    exact normalizeSrv_url _ _ _ _ _ hr1
  · exact normalizeG_url _ _ _ _ hr2

/-- Closed instance of `c2_amended_source_url` at concrete runs. -/
theorem c2_amended_source_url_witness :
    ({ text := "Nice and quiet."
     , url := "https://www.google.com/maps/search/Foo Bar?hl=en&gl=us" } :
        ReviewRecord).url =
      (if envB.placeUrl = "" then searchVariant0 envB else envB.placeUrl) ∧
    ({ text := "A lovely stay", url := "" } : ReviewRecord).url =
      (if genvS.placeUrl = "" then "" else genvS.placeUrl) :=
  c2_amended_source_url envB genvS
    [{ text := "Nice and quiet."
     , url := "https://www.google.com/maps/search/Foo Bar?hl=en&gl=us" }]
    (by decide)
    { text := "Nice and quiet."
    , url := "https://www.google.com/maps/search/Foo Bar?hl=en&gl=us" }
    (by decide)
    { text := "A lovely stay", url := "" } (by decide)

/-- C3 counterexample: in a concrete server.js run the time budget is
already exhausted before the collection loop starts (navigation took
120001 ms against a 120000 ms budget), yet the operation does not error
with a Timeout — it returns a normal empty success result.  The model
has no Timeout error at all because server.js has no such throw site. -/
theorem c3_counterexample :
    envT.timeoutMs < envT.navElapsed ∧
    (scrapeServer envT).result = Except.ok [] := by
  refine ⟨by decide, by decide⟩

/-- C3 (amended): the time budget is enforced only as the collection-loop
guard.  Once navigation and card discovery succeed the operation always
returns a non-error result, whatever the elapsed time; if the budget is
already exhausted when the loop is reached, that result is empty, and if
it runs out mid-collection the partial unique set collected so far is
returned.  No Timeout error exists anywhere in the code. -/
theorem c3_amended_time_budget (env : ServerEnv)
    (h1 : env.newContextOk = true) (h2 : env.newPageOk = true)
    (h3 : env.gotoThrows = false) (h4 : env.navOk = true)
    (h5 : (findCards env).isSome = true) :
    (∃ l, (scrapeServer env).result = Except.ok l) ∧
    (env.timeoutMs ≤ env.navElapsed →
      (scrapeServer env).result = Except.ok []) := by
  obtain ⟨sel, hsel⟩ := Option.isSome_iff_exists.mp h5
  constructor
  · exact ⟨normalizeSrv (collect env).texts env.placeUrl (searchVariant0 env)
      env.maxReviews, by simp [scrapeServer, h1, h2, h3, h4, hsel]⟩
  · intro htm
    have hstop : srvStep env (initState env) = .done (initState env) := by
      unfold srvStep
      rw [if_neg]
      intro hc
      have : (initState env).elapsed < env.timeoutMs := hc.2
      simp only [initState] at this
      omega
    have hcoll : collect env = initState env := by
      unfold collect
      rw [runLoop_stop (srvStep env) (srvFuel env) _ _
        (by simp [srvFuel]) hstop]
      rfl
    have : normalizeSrv (collect env).texts env.placeUrl (searchVariant0 env)
        env.maxReviews = [] := by
      rw [hcoll]
      simp [normalizeSrv, initState]
    simp [scrapeServer, h1, h2, h3, h4, hsel, this]

/-- Closed instance of `c3_amended_time_budget`: budget exhausted before
collection still yields a non-error empty result. -/
theorem c3_amended_time_budget_witness :
    (scrapeServer envT).result = Except.ok [] :=
  (c3_amended_time_budget envT rfl rfl rfl rfl (by decide)).2 (by decide)

/-- C4 counterexample: if `context.newPage()` raises, the operation
re-raises while the browser launched at the start is never closed —
lines 53-66 of server.js run before the `try`, so the `catch` cleanup
never sees them. -/
theorem c4_counterexample :
    envL.newContextOk = true ∧ envL.newPageOk = false ∧
    (scrapeServer envL).result = Except.error ScrapeErr.DriverFailure ∧
    (scrapeServer envL).browserClosed = 0 ∧
    (scrapeServer envL).contextClosed = 0 := by
  refine ⟨by decide, by decide, by decide, by decide, by decide⟩

/-- C4 (amended): once context and page creation have succeeded (i.e. the
`try` block is entered), the browser session is closed exactly once on
every exit path — success, navigation failure, missing review cards, or
a driver exception; only exceptions thrown during context/page creation,
which precede the `try`, leak the session. -/
theorem c4_amended_release (env : ServerEnv)
    (h1 : env.newContextOk = true) (h2 : env.newPageOk = true) :
    (scrapeServer env).contextClosed = 1 ∧
    (scrapeServer env).browserClosed = 1 := by
  unfold scrapeServer
  rw [h1, h2]
  by_cases h3 : env.gotoThrows <;> by_cases h4 : env.navOk <;>
    cases hfc : findCards env <;> simp [h3, h4, hfc]

/-- Closed instance of `c4_amended_release` at a concrete successful
run. -/
theorem c4_amended_release_witness :
    (scrapeServer envA).contextClosed = 1 ∧
    (scrapeServer envA).browserClosed = 1 :=
  c4_amended_release envA rfl rfl

/-- C6 counterexample: in a concrete googleScraper.js run the first
iteration grows the unique-text count from 0 to 1 yet the stagnation
streak becomes 1, not 0 — googleScraper.js keys the streak to the
rendered card count (0 here), not to the unique-text count. -/
theorem c6_counterexample :
    (gInit genvS).out.length = 0 ∧
    (gIter genvS (gInit genvS)).out.length = 1 ∧
    (gIter genvS (gInit genvS)).stagnation = 1 := by
  refine ⟨by decide, by decide, by decide⟩

/-- C6 (amended): after each iteration the server.js streak is 0 exactly
when the unique-text count grew and the previous streak plus one
otherwise, as the claim states (using the loop invariant `lastCount =
texts.length`, which holds initially and is preserved); the
googleScraper.js streak instead resets exactly when the rendered
review-card count exceeded its previous maximum, independent of
unique-text growth. -/
theorem c6_amended_stagnation_rule (env : ServerEnv) (s : CState)
    (hs : s.lastCount = s.texts.length) :
    ((srvIter env s).stagnation =
      if s.texts.length < (srvIter env s).texts.length then 0
      else s.stagnation + 1) ∧
    (∀ t : CState, ∀ t', SrvInv t → srvStep env t = .next t' → SrvInv t') ∧
    SrvInv (initState env) ∧
    (∀ (genv : GEnv) (t : GState),
      (gIter genv t).stagnation =
        if t.lastCount < genv.cardCount t.iter then 0 else t.stagnation + 1) := by
  refine ⟨?_, ?_, ⟨rfl, List.Pairwise.nil⟩, fun genv t => rfl⟩
  · simp only [srvIter]
    rw [← hs]
  · intro t t' hI hstep
    exact (srvStep_next env t t' hI hstep).1

/-- Closed instance of `c6_amended_stagnation_rule` at a concrete state. -/
theorem c6_amended_stagnation_rule_witness :
    ((srvIter envA (initState envA)).stagnation =
      if (initState envA).texts.length < (srvIter envA (initState envA)).texts.length
      then 0 else (initState envA).stagnation + 1) :=
  (c6_amended_stagnation_rule envA (initState envA) rfl).1
